import Mathlib

/-!
Verification of the GoldNotch/Engine RHI core against its specification.

The development shallowly embeds the parts of the repository the claims are
about:

* `StaticMesh`, `std::hash<StaticMesh>` and `operator==` together with the
  content cache and draw dispatch of `MeshPipeline::ProcessObject`
  (Source/Rendering/VulkanImpl/Pipelines/MeshPipeline.cpp);
* the `PipelineBuilder` state, its `Reset`/`AttachShader` operations and the
  fixed-function/shader-stage assembly and failure path of
  `PipelineBuilder::Make`
  (Source/Graphics/RHI/Vulkan/Utils/PipelineBuilder.cpp).

Machine integers are modelled as `Nat` (sizes, counts, addresses, handles)
and `Int` (driver status codes); byte payloads live in an explicit host
memory `Nat → Nat`; fallible driver calls are driven by explicit oracles and
return error values instead of throwing.
-/

/- ----------------------------------------------------------------- -/
/- Static mesh data model                                            -/
/- ----------------------------------------------------------------- -/

/-- Modelled from the spec: the `StaticMesh` struct itself is declared in a
header that is not part of the sources at hand; the spec describes it as
"vertex positions, vertex colors, optional index list, and counts".  Its
fields are taken exactly as `MeshPipeline.cpp` uses them: `vertices`,
`colors` and `indices` are raw pointers (they are passed to `std::memcpy` as
source addresses and hashed by value), here addresses in host memory, and
`vertices_count`/`indices_count` are element counts. -/
structure StaticMesh where
  vertices_count : Nat
  indices_count : Nat
  vertices : Nat
  colors : Nat
  indices : Nat
deriving DecidableEq, Repr

/-- sizeof(glVec2): two 32-bit floats (position attribute, format R32G32). -/
def sizeofGlVec2 : Nat := 8

/-- sizeof(glVec3): three 32-bit floats (color attribute, format R32G32B32). -/
def sizeofGlVec3 : Nat := 12

/-- sizeof(uint32_t): index element size. -/
def sizeofUint32 : Nat := 4

/-- Modelled from the spec: `Core::utils::hash_combine` lives in a core
utility header that is not among the sources; it is the standard seed
combiner `seed ^= hash(v) + 0x9e3779b9 + (seed << 6) + (seed >> 2)` on
64-bit `size_t`, with `std::hash` of an integer or pointer being its value. -/
def hash_combine (seed v : Nat) : Nat :=
  Nat.xor seed ((v + 0x9e3779b9 + seed * 64 + seed / 4) % 2 ^ 64) % 2 ^ 64

/-- `std::hash<StaticMesh>`: combines `mesh.vertices_count` and the
`mesh.vertices` pointer value into a fresh seed (MeshPipeline.cpp:19-25). -/
def meshHash (mesh : StaticMesh) : Nat :=
  hash_combine (hash_combine 0 mesh.vertices_count) mesh.vertices

/-- `operator==(const StaticMesh &, const StaticMesh &)`: byte-wise
`memcmp` of the two structs (MeshPipeline.cpp:29-32).  Two structs have
equal bytes exactly when all their fields (counts and pointer values) are
equal. -/
def meshEq (m1 m2 : StaticMesh) : Bool :=
  m1.vertices_count == m2.vertices_count && m1.indices_count == m2.indices_count &&
    m1.vertices == m2.vertices && m1.colors == m2.colors && m1.indices == m2.indices

/- ----------------------------------------------------------------- -/
/- GPU buffers, memory manager and the mesh pipeline state           -/
/- ----------------------------------------------------------------- -/

/-- A `BufferGPU`: driver handle (0 models `VK_NULL_HANDLE`), allocation
size in bytes, and the bytes uploaded into it.  A default-constructed
`BufferGPU` (as `ind_buffer` in the indexless branch) has a null handle. -/
structure BufferGPU where
  handle : Nat
  size : Nat
  data : List Nat
deriving DecidableEq, Repr

/-- A default-constructed `BufferGPU` (null handle, nothing allocated). -/
def nullBuffer : BufferGPU := { handle := 0, size := 0, data := [] }

/-- Buffer usage flag passed to `IMemoryManager::AllocBuffer`. -/
inductive BufferUsage where
  | vertexBufferBit
  | indexBufferBit
deriving DecidableEq, Repr

/-- Errors raised on the `ProcessObject` path: a buffer allocation failing
is surfaced as a construction error carrying the requested size and usage. -/
inductive RenderError where
  | allocFailed (size : Nat) (usage : BufferUsage)
deriving DecidableEq, Repr

/-- A recorded draw command: `vkCmdDrawIndexed(indexCount, instanceCount,…)`
or `vkCmdDraw(vertexCount, instanceCount,…)`. -/
inductive DrawCmd where
  | indexed (indexCount instanceCount : Nat)
  | nonIndexed (vertexCount instanceCount : Nat)
deriving DecidableEq, Repr

/-- Environment a `ProcessObject` call runs in: the host memory holding the
mesh payload bytes, and an oracle deciding whether the k-th allocation the
memory manager performs succeeds. -/
structure RenderEnv where
  mem : Nat → Nat
  allocOk : Nat → Bool

/-- Observable state of a `MeshPipeline`: its geometry cache (an association
list mirroring the `unordered_map<StaticMesh, pair<BufferGPU, BufferGPU>>`
keyed by `operator==`), a fresh-handle counter for the memory manager, and
instrumentation counters (buffer allocations, buffer uploads, uniform
uploads) plus the recorded draw commands. -/
structure MeshPipelineState where
  cache : List (StaticMesh × (BufferGPU × BufferGPU))
  nextHandle : Nat
  allocCount : Nat
  uploadCount : Nat
  uniformUploadCount : Nat
  draws : List DrawCmd
deriving DecidableEq, Repr

/-- The pipeline state right after construction: empty cache, nothing
recorded. -/
def initState : MeshPipelineState :=
  { cache := [], nextHandle := 0, allocCount := 0, uploadCount := 0,
    uniformUploadCount := 0, draws := [] }

/-- `IMemoryManager::AllocBuffer(size, usage)`: on success returns a buffer
with a fresh non-null handle of exactly the requested size; on failure the
construction error escapes and no state changes. -/
def AllocBuffer (env : RenderEnv) (s : MeshPipelineState) (size : Nat)
    (usage : BufferUsage) : Except RenderError BufferGPU × MeshPipelineState :=
  if env.allocOk s.allocCount then
    (Except.ok { handle := s.nextHandle + 1, size := size, data := [] },
      { s with nextHandle := s.nextHandle + 1, allocCount := s.allocCount + 1 })
  else
    (Except.error (RenderError.allocFailed size usage), s)

/-- The `len` bytes of host memory starting at address `addr`. -/
def readBytes (env : RenderEnv) (addr len : Nat) : List Nat :=
  (List.range len).map (fun i => env.mem (addr + i))

/-- The cache-miss branch of `MeshPipeline::ProcessObject`
(MeshPipeline.cpp:117-148): allocate a vertex buffer of
`vertices_count * (sizeof(glVec2) + sizeof(glVec3))` bytes, upload the
positions at offset 0 immediately followed by the colors (one scoped
map/flush); if `indices_count > 0` allocate and upload an index buffer of
`indices_count * sizeof(uint32_t)` bytes, otherwise keep a
default-constructed (null) index buffer; finally insert the new entry into
the cache.  A failing allocation escapes before the insertion. -/
def bufferizeMesh (env : RenderEnv) (mesh : StaticMesh) (s0 : MeshPipelineState) :
    Except RenderError (BufferGPU × BufferGPU) × MeshPipelineState :=
  match AllocBuffer env s0 (mesh.vertices_count * (sizeofGlVec2 + sizeofGlVec3))
      BufferUsage.vertexBufferBit with
  | (Except.error e, s1) => (Except.error e, s1)
  | (Except.ok vb0, s1) =>
    let vb := { vb0 with
      data := readBytes env mesh.vertices (mesh.vertices_count * sizeofGlVec2) ++
        readBytes env mesh.colors (mesh.vertices_count * sizeofGlVec3) }
    let s2 := { s1 with uploadCount := s1.uploadCount + 1 }
    if 0 < mesh.indices_count then
      match AllocBuffer env s2 (mesh.indices_count * sizeofUint32)
          BufferUsage.indexBufferBit with
      | (Except.error e, s3) => (Except.error e, s3)
      | (Except.ok ib0, s3) =>
        let ib := { ib0 with
          data := readBytes env mesh.indices (mesh.indices_count * sizeofUint32) }
        let s4 := { s3 with uploadCount := s3.uploadCount + 1 }
        (Except.ok (vb, ib), { s4 with cache := s4.cache ++ [(mesh, (vb, ib))] })
    else
      (Except.ok (vb, nullBuffer),
        { s2 with cache := s2.cache ++ [(mesh, (vb, nullBuffer))] })

/-- The tail of `MeshPipeline::ProcessObject` after the cache block
(MeshPipeline.cpp:150-171): upload the per-frame uniform exactly when
`frame_index == 0`, then record one draw — indexed with
`indices_count` indices iff the cache entry's index buffer handle is
non-null, otherwise non-indexed with `vertices_count` vertices, instance
count 1 either way. -/
def finishObject (frame_index : Nat) (mesh : StaticMesh)
    (bufs : BufferGPU × BufferGPU) (s : MeshPipelineState) : MeshPipelineState :=
  let s1 := if frame_index = 0 then
    { s with uniformUploadCount := s.uniformUploadCount + 1 } else s
  let draw := if bufs.2.handle != 0 then DrawCmd.indexed mesh.indices_count 1
    else DrawCmd.nonIndexed mesh.vertices_count 1
  { s1 with draws := s1.draws ++ [draw] }

/-- `MeshPipeline::ProcessObject(buffer, frame_index, mesh)`
(MeshPipeline.cpp:114-172): look the mesh up in the cache by `operator==`;
on a miss run the allocation/upload/insert block (`bufferizeMesh`), with a
failing allocation escaping as a construction error before anything is
inserted; then perform the frame-0 uniform upload and record the draw. -/
def ProcessObject (env : RenderEnv) (frame_index : Nat) (mesh : StaticMesh)
    (s0 : MeshPipelineState) : Option RenderError × MeshPipelineState :=
  match s0.cache.find? (fun e => meshEq e.1 mesh) with
  | some entry => (none, finishObject frame_index mesh entry.2 s0)
  | none =>
    match bufferizeMesh env mesh s0 with
    | (Except.error e, s1) => (some e, s1)
    | (Except.ok bufs, s1) => (none, finishObject frame_index mesh bufs s1)

/- ----------------------------------------------------------------- -/
/- Pipeline builder data model                                       -/
/- ----------------------------------------------------------------- -/

/-- `RHI::ShaderType` (public configuration enum). -/
inductive ShaderType where
  | Vertex
  | TessellationControl
  | TessellationEvaluation
  | Geometry
  | Fragment
  | Compute
deriving DecidableEq, Repr

/-- `RHI::PolygonMode` (builder-side enum). -/
inductive PolygonMode where
  | Fill
  | Line
  | Point
deriving DecidableEq, Repr

/-- `RHI::CullingMode` (builder-side enum). -/
inductive CullingMode where
  | None
  | FrontFace
  | BackFace
  | FrontAndBack
deriving DecidableEq, Repr

/-- `RHI::FrontFace` (builder-side enum). -/
inductive FrontFace where
  | CW
  | CCW
deriving DecidableEq, Repr

/-- `RHI::BlendOperation` (builder-side enum). -/
inductive BlendOperation where
  | Add
  | Subtract
  | ReversedSubtract
  | Min
  | Max
deriving DecidableEq, Repr

/-- `RHI::BlendFactor` (builder-side enum; only the factors the sources use
are listed, the remaining standard factors behave identically for the
claims at hand). -/
inductive BlendFactor where
  | Zero
  | One
  | SrcColor
  | OneMinusSrcColor
  | DstColor
  | OneMinusDstColor
  | SrcAlpha
  | OneMinusSrcAlpha
deriving DecidableEq, Repr

/-- `VkShaderStageFlagBits` values used by the stage mapping. -/
inductive VkShaderStageFlagBits where
  | vertexBit
  | tessellationControlBit
  | tessellationEvaluationBit
  | geometryBit
  | fragmentBit
  | computeBit
deriving DecidableEq, Repr

/-- `ShaderType2ShaderStageFlag` (PipelineBuilder.cpp:10-19): the constant
lookup table from `RHI::ShaderType` to `VkShaderStageFlagBits`. -/
def ShaderType2ShaderStageFlag : ShaderType → VkShaderStageFlagBits
  | ShaderType.Vertex => VkShaderStageFlagBits.vertexBit
  | ShaderType.TessellationControl => VkShaderStageFlagBits.tessellationControlBit
  | ShaderType.TessellationEvaluation => VkShaderStageFlagBits.tessellationEvaluationBit
  | ShaderType.Geometry => VkShaderStageFlagBits.geometryBit
  | ShaderType.Fragment => VkShaderStageFlagBits.fragmentBit
  | ShaderType.Compute => VkShaderStageFlagBits.computeBit

/-- `VkPolygonMode` values relevant to `Make`. -/
inductive VkPolygonMode where
  | fill
  | line
  | point
deriving DecidableEq, Repr

/-- `VkCullModeFlags` values relevant to `Make`. -/
inductive VkCullMode where
  | noneMode
  | front
  | back
  | frontAndBack
deriving DecidableEq, Repr

/-- `VkFrontFace` values relevant to `Make`. -/
inductive VkFrontFace where
  | clockwise
  | counterClockwise
deriving DecidableEq, Repr

/-- `VkBlendFactor` values the sources write into blend attachments. -/
inductive VkBlendFactor where
  | zero
  | one
deriving DecidableEq, Repr

/-- `VkBlendOp` values the sources write into blend attachments. -/
inductive VkBlendOp where
  | add
deriving DecidableEq, Repr

/-- `VkDynamicState` values the builder constructor registers. -/
inductive VkDynamicState where
  | viewport
  | scissor
deriving DecidableEq, Repr

/-- The blend-attachment fields of `VkPipelineColorBlendAttachmentState`
that the builder writes (PipelineBuilder.cpp:76-85). -/
structure VkPipelineColorBlendAttachmentState where
  blendEnable : Bool
  srcColorBlendFactor : VkBlendFactor
  dstColorBlendFactor : VkBlendFactor
  colorBlendOp : VkBlendOp
  srcAlphaBlendFactor : VkBlendFactor
  dstAlphaBlendFactor : VkBlendFactor
  alphaBlendOp : VkBlendOp
deriving DecidableEq, Repr

/-- The attachment the `PipelineBuilder` constructor pushes into
`m_colorBlendAttachments` (PipelineBuilder.cpp:76-85): blending disabled,
one/zero factors, add operations. -/
def defaultColorBlendAttachment : VkPipelineColorBlendAttachmentState :=
  { blendEnable := false,
    srcColorBlendFactor := VkBlendFactor.one,
    dstColorBlendFactor := VkBlendFactor.zero,
    colorBlendOp := VkBlendOp.add,
    srcAlphaBlendFactor := VkBlendFactor.one,
    dstAlphaBlendFactor := VkBlendFactor.zero,
    alphaBlendOp := VkBlendOp.add }

/-- The configuration state of `RHI::vulkan::details::PipelineBuilder`: the
fixed-function fields `Reset` writes (PipelineBuilder.cpp:204-218), the
attached-shader list `AttachShader` appends to (PipelineBuilder.cpp:220-223),
and the dynamic-state and color-blend-attachment vectors the constructor
fills (PipelineBuilder.cpp:72-86).  The line width is kept as a rational
(`Reset` stores the literal 1.0f). -/
structure PipelineBuilder where
  m_lineWidth : ℚ
  m_polygonMode : PolygonMode
  m_cullingMode : CullingMode
  m_frontFace : FrontFace
  m_blendEnabled : Bool
  m_blendColorOp : BlendOperation
  m_blendAlphaOp : BlendOperation
  m_blendSrcColorFactor : BlendFactor
  m_blendDstColorFactor : BlendFactor
  m_blendSrcAlphaFactor : BlendFactor
  m_blendDstAlphaFactor : BlendFactor
  m_attachedShaders : List (ShaderType × String)
  m_dynamicStates : List VkDynamicState
  m_colorBlendAttachments : List VkPipelineColorBlendAttachmentState
deriving DecidableEq, Repr

/-- `PipelineBuilder::PipelineBuilder()` (PipelineBuilder.cpp:72-86): the
constructor registers the viewport/scissor dynamic states and one disabled
color-blend attachment.  Modelled from the spec: the in-class initial
values of the scalar fields live in the `Builders.hpp` header, which is not
among the sources; they are taken as the defaults the spec lists for a
fresh/reset builder. -/
def PipelineBuilder.init : PipelineBuilder :=
  { m_lineWidth := 1,
    m_polygonMode := PolygonMode.Fill,
    m_cullingMode := CullingMode.None,
    m_frontFace := FrontFace.CCW,
    m_blendEnabled := false,
    m_blendColorOp := BlendOperation.Add,
    m_blendAlphaOp := BlendOperation.Add,
    m_blendSrcColorFactor := BlendFactor.One,
    m_blendDstColorFactor := BlendFactor.Zero,
    m_blendSrcAlphaFactor := BlendFactor.One,
    m_blendDstAlphaFactor := BlendFactor.Zero,
    m_attachedShaders := [],
    m_dynamicStates := [VkDynamicState.viewport, VkDynamicState.scissor],
    m_colorBlendAttachments := [defaultColorBlendAttachment] }

/-- `PipelineBuilder::Reset()` (PipelineBuilder.cpp:204-218): restores the
eleven scalar fixed-function fields to their defaults.  It touches nothing
else — in particular neither `m_attachedShaders` nor
`m_colorBlendAttachments`. -/
def PipelineBuilder.Reset (b : PipelineBuilder) : PipelineBuilder :=
  { b with
    m_lineWidth := 1,
    m_polygonMode := PolygonMode.Fill,
    m_cullingMode := CullingMode.None,
    m_frontFace := FrontFace.CCW,
    m_blendEnabled := false,
    m_blendColorOp := BlendOperation.Add,
    m_blendAlphaOp := BlendOperation.Add,
    m_blendSrcColorFactor := BlendFactor.One,
    m_blendDstColorFactor := BlendFactor.Zero,
    m_blendSrcAlphaFactor := BlendFactor.One,
    m_blendDstAlphaFactor := BlendFactor.Zero }

/-- `PipelineBuilder::AttachShader(type, path)` (PipelineBuilder.cpp:220-223):
pushes the pair onto the attached-shader list, unconditionally. -/
def PipelineBuilder.AttachShader (b : PipelineBuilder) (t : ShaderType)
    (p : String) : PipelineBuilder :=
  { b with m_attachedShaders := b.m_attachedShaders ++ [(t, p)] }

/-- Modelled from the spec: the configuration surface of the builder (the
setters declared in the `Builders.hpp` header, which is not among the
sources).  Per the spec each configuration call writes the corresponding
builder field; `attach` is `AttachShader`. -/
inductive BuilderOp where
  | attach (t : ShaderType) (p : String)
  | setLineWidth (w : ℚ)
  | setPolygonMode (m : PolygonMode)
  | setCullingMode (m : CullingMode)
  | setFrontFace (f : FrontFace)
  | setBlendEnabled (e : Bool)
  | setBlendColorOp (o : BlendOperation)
  | setBlendAlphaOp (o : BlendOperation)
  | setBlendFactors (sc dc sa da : BlendFactor)
deriving DecidableEq, Repr

/-- Apply one configuration operation to the builder. -/
def applyOp (b : PipelineBuilder) : BuilderOp → PipelineBuilder
  | BuilderOp.attach t p => b.AttachShader t p
  | BuilderOp.setLineWidth w => { b with m_lineWidth := w }
  | BuilderOp.setPolygonMode m => { b with m_polygonMode := m }
  | BuilderOp.setCullingMode m => { b with m_cullingMode := m }
  | BuilderOp.setFrontFace f => { b with m_frontFace := f }
  | BuilderOp.setBlendEnabled e => { b with m_blendEnabled := e }
  | BuilderOp.setBlendColorOp o => { b with m_blendColorOp := o }
  | BuilderOp.setBlendAlphaOp o => { b with m_blendAlphaOp := o }
  | BuilderOp.setBlendFactors sc dc sa da =>
    { b with
      m_blendSrcColorFactor := sc
      m_blendDstColorFactor := dc
      m_blendSrcAlphaFactor := sa
      m_blendDstAlphaFactor := da }

/-- Apply a whole configuration sequence, left to right. -/
def applyOps (b : PipelineBuilder) (ops : List BuilderOp) : PipelineBuilder :=
  ops.foldl applyOp b

/- ----------------------------------------------------------------- -/
/- PipelineBuilder::Make                                             -/
/- ----------------------------------------------------------------- -/

/-- The fields of `VkPipelineRasterizationStateCreateInfo` that `Make`
writes (PipelineBuilder.cpp:120-131). -/
structure VkPipelineRasterizationStateCreateInfo where
  depthClampEnable : Bool
  polygonMode : VkPolygonMode
  rasterizerDiscardEnable : Bool
  lineWidth : ℚ
  cullMode : VkCullMode
  frontFace : VkFrontFace
  depthBiasEnable : Bool
deriving DecidableEq, Repr

/-- The rasterization state `Make` assembles (PipelineBuilder.cpp:120-131):
fill polygon mode, `lineWidth` taken from `m_lineWidth`, and — hard-coded,
ignoring `m_polygonMode`, `m_cullingMode` and `m_frontFace` —
`VK_CULL_MODE_BACK_BIT` culling with `VK_FRONT_FACE_CLOCKWISE`. -/
def makeRasterizationState (b : PipelineBuilder) :
    VkPipelineRasterizationStateCreateInfo :=
  { depthClampEnable := false,
    polygonMode := VkPolygonMode.fill,
    rasterizerDiscardEnable := false,
    lineWidth := b.m_lineWidth,
    cullMode := VkCullMode.back,
    frontFace := VkFrontFace.clockwise,
    depthBiasEnable := false }

/-- The fields of `VkPipelineColorBlendStateCreateInfo` that `Make` writes
(PipelineBuilder.cpp:142-151): logic op disabled, attachments taken from
`m_colorBlendAttachments`. -/
structure VkPipelineColorBlendStateCreateInfo where
  logicOpEnable : Bool
  attachments : List VkPipelineColorBlendAttachmentState
deriving DecidableEq, Repr

/-- The color-blend state `Make` assembles (PipelineBuilder.cpp:142-151). -/
def makeColorBlendState (b : PipelineBuilder) :
    VkPipelineColorBlendStateCreateInfo :=
  { logicOpEnable := false, attachments := b.m_colorBlendAttachments }

/-- The fields of `VkPipelineShaderStageCreateInfo` that `Make` writes per
attached shader (PipelineBuilder.cpp:160-165): the stage flag translated
from the `ShaderType`, entry point "main", and the shader module handle. -/
structure VkPipelineShaderStageCreateInfo where
  stage : VkShaderStageFlagBits
  pName : String
  module : Nat
deriving DecidableEq, Repr

/-- The shader loop of `Make` (PipelineBuilder.cpp:154-166): for each
attached `(type, path)` in list order, load a shader module (modelled as
handles `next`, `next+1`, …) and push one stage-create-info.  Returns the
stage array and the `compiledShaders` vector. -/
def buildStages : List (ShaderType × String) → Nat →
    List VkPipelineShaderStageCreateInfo × List Nat
  | [], _ => ([], [])
  | (t, _p) :: rest, next =>
    let tail := buildStages rest (next + 1)
    ({ stage := ShaderType2ShaderStageFlag t, pName := "main",
        module := next } :: tail.1,
      next :: tail.2)

/-- Status code of `vkCreateGraphicsPipelines` (`VK_SUCCESS` is 0). -/
structure MakeEnv where
  createResult : Int
deriving DecidableEq, Repr

/-- Failure of `Make`: the `std::runtime_error` - "Failed to create graphics
pipeline - res" - carrying the driver status code. -/
inductive MakeError where
  | pipelineCreationFailed (code : Int)
deriving DecidableEq, Repr

/-- Result of `Make`: either the created pipeline handle or the thrown
construction error. -/
inductive MakeResult where
  | ok (handle : Nat)
  | error (e : MakeError)
deriving DecidableEq, Repr

/-- The observable outcome of `PipelineBuilder::Make`: the assembled shader
stages, which shader modules were loaded and which were destroyed, and the
result (a pipeline handle or the construction error). -/
structure MakeTrace where
  shaderStages : List VkPipelineShaderStageCreateInfo
  loadedModules : List Nat
  destroyedModules : List Nat
  result : MakeResult
deriving DecidableEq, Repr

/-- `PipelineBuilder::Make(device, renderPass, subpass_index, layout)`
(PipelineBuilder.cpp:89-202), reduced to its observable effects: run the
shader loop, call `vkCreateGraphicsPipelines`; if the driver reports a
non-success status, throw the construction error carrying the status code —
the shader-module cleanup loop (PipelineBuilder.cpp:195-196) sits after the
throw and therefore runs only on the success path. -/
def PipelineBuilder.Make (env : MakeEnv) (b : PipelineBuilder) : MakeTrace :=
  let compiled := buildStages b.m_attachedShaders 1
  if env.createResult = 0 then
    { shaderStages := compiled.1, loadedModules := compiled.2,
      destroyedModules := compiled.2, result := MakeResult.ok 1 }
  else
    { shaderStages := compiled.1, loadedModules := compiled.2,
      destroyedModules := [],
      result := MakeResult.error (MakeError.pipelineCreationFailed env.createResult) }

/- ----------------------------------------------------------------- -/
/- Concrete inputs used by witnesses and counterexamples             -/
/- ----------------------------------------------------------------- -/

/-- An environment whose host memory is all zero bytes and whose memory
manager never fails. -/
def envAllOk : RenderEnv := { mem := fun _ => 0, allocOk := fun _ => true }

/-- An environment whose memory manager fails every allocation. -/
def envNoAlloc : RenderEnv := { mem := fun _ => 0, allocOk := fun _ => false }

/-- A one-vertex, indexless mesh whose payload lives at addresses 100/200. -/
def meshA : StaticMesh :=
  { vertices_count := 1, indices_count := 0, vertices := 100, colors := 200,
    indices := 0 }

/-- The same payload content as `meshA` but stored at addresses 300/400. -/
def meshB : StaticMesh :=
  { vertices_count := 1, indices_count := 0, vertices := 300, colors := 400,
    indices := 0 }

/-- A triangle: 3 vertices, no indices. -/
def triangleMesh : StaticMesh :=
  { vertices_count := 3, indices_count := 0, vertices := 100, colors := 200,
    indices := 0 }

/-- A one-vertex mesh with 3 indices. -/
def meshIndexed : StaticMesh :=
  { vertices_count := 1, indices_count := 3, vertices := 100, colors := 200,
    indices := 50 }

/-- The spec's notion of a drawable's payload, written from the spec's
words for comparison with the code's cache key: the raw bytes of the
vertex, color and index arrays the mesh points at (not the pointer values
themselves). -/
def payloadBytes (env : RenderEnv) (m : StaticMesh) : List Nat :=
  readBytes env m.vertices (m.vertices_count * sizeofGlVec2) ++
    readBytes env m.colors (m.vertices_count * sizeofGlVec3) ++
    readBytes env m.indices (m.indices_count * sizeofUint32)

/- ----------------------------------------------------------------- -/
/- Helper lemmas                                                     -/
/- ----------------------------------------------------------------- -/

theorem meshEq_refl (m : StaticMesh) : meshEq m m = true := by
  simp [meshEq]

theorem find_append_single_of_none {α : Type} (p : α → Bool) (l : List α)
    (x : α) (hl : l.find? p = none) (hx : p x = true) :
    (l ++ [x]).find? p = some x := by
  induction l with
  | nil => simp [List.find?, hx]
  | cons a as ih =>
    rw [List.find?_cons] at hl
    rw [List.cons_append, List.find?_cons]
    cases hpa : p a with
    | true => rw [hpa] at hl; exact absurd hl (by simp)
    | false => rw [hpa] at hl; exact ih hl

theorem finishObject_cache (fi : Nat) (mesh : StaticMesh)
    (bufs : BufferGPU × BufferGPU) (s : MeshPipelineState) :
    (finishObject fi mesh bufs s).cache = s.cache := by
  unfold finishObject
  split <;> rfl

theorem finishObject_allocCount (fi : Nat) (mesh : StaticMesh)
    (bufs : BufferGPU × BufferGPU) (s : MeshPipelineState) :
    (finishObject fi mesh bufs s).allocCount = s.allocCount := by
  unfold finishObject
  split <;> rfl

theorem finishObject_uploadCount (fi : Nat) (mesh : StaticMesh)
    (bufs : BufferGPU × BufferGPU) (s : MeshPipelineState) :
    (finishObject fi mesh bufs s).uploadCount = s.uploadCount := by
  unfold finishObject
  split <;> rfl

theorem finishObject_uniformUploadCount (fi : Nat) (mesh : StaticMesh)
    (bufs : BufferGPU × BufferGPU) (s : MeshPipelineState) :
    (finishObject fi mesh bufs s).uniformUploadCount =
      s.uniformUploadCount + (if fi = 0 then 1 else 0) := by
  unfold finishObject
  split <;> simp

theorem finishObject_draws (fi : Nat) (mesh : StaticMesh)
    (bufs : BufferGPU × BufferGPU) (s : MeshPipelineState) :
    (finishObject fi mesh bufs s).draws = s.draws ++
      [if bufs.2.handle != 0 then DrawCmd.indexed mesh.indices_count 1
        else DrawCmd.nonIndexed mesh.vertices_count 1] := by
  unfold finishObject
  split <;> rfl

theorem ProcessObject_eq_hit (env : RenderEnv) (fi : Nat) (mesh : StaticMesh)
    (s : MeshPipelineState) (entry : StaticMesh × (BufferGPU × BufferGPU))
    (h : s.cache.find? (fun e => meshEq e.1 mesh) = some entry) :
    ProcessObject env fi mesh s = (none, finishObject fi mesh entry.2 s) := by
  unfold ProcessObject
  rw [h]

theorem AllocBuffer_of_allocOk (env : RenderEnv) (s : MeshPipelineState)
    (size : Nat) (usage : BufferUsage) (h : env.allocOk s.allocCount = true) :
    AllocBuffer env s size usage =
      (Except.ok { handle := s.nextHandle + 1, size := size, data := [] },
        { s with nextHandle := s.nextHandle + 1, allocCount := s.allocCount + 1 }) := by
  unfold AllocBuffer
  rw [if_pos h]

theorem AllocBuffer_of_allocFail (env : RenderEnv) (s : MeshPipelineState)
    (size : Nat) (usage : BufferUsage) (h : env.allocOk s.allocCount = false) :
    AllocBuffer env s size usage =
      (Except.error (RenderError.allocFailed size usage), s) := by
  unfold AllocBuffer
  rw [if_neg (by simp [h])]

theorem bufferizeMesh_ok_of_allocOk (env : RenderEnv) (mesh : StaticMesh)
    (s0 : MeshPipelineState) (hok : ∀ k, env.allocOk k = true) :
    ∃ vb ib s1, bufferizeMesh env mesh s0 = (Except.ok (vb, ib), s1) ∧
      s1.cache = s0.cache ++ [(mesh, (vb, ib))] ∧
      vb.handle ≠ 0 ∧
      vb.size = mesh.vertices_count * (sizeofGlVec2 + sizeofGlVec3) ∧
      vb.data = readBytes env mesh.vertices (mesh.vertices_count * sizeofGlVec2) ++
        readBytes env mesh.colors (mesh.vertices_count * sizeofGlVec3) ∧
      s1.allocCount = s0.allocCount + (if 0 < mesh.indices_count then 2 else 1) ∧
      s1.uploadCount = s0.uploadCount + (if 0 < mesh.indices_count then 2 else 1) ∧
      s1.uniformUploadCount = s0.uniformUploadCount ∧
      s1.draws = s0.draws ∧
      (0 < mesh.indices_count →
        ib.handle ≠ 0 ∧ ib.size = mesh.indices_count * sizeofUint32 ∧
        ib.data = readBytes env mesh.indices (mesh.indices_count * sizeofUint32)) ∧
      (mesh.indices_count = 0 → ib = nullBuffer) := by
  unfold bufferizeMesh
  rw [AllocBuffer_of_allocOk env s0 _ _ (hok s0.allocCount)]
  dsimp only
  by_cases hI : 0 < mesh.indices_count
  · rw [if_pos hI]
    rw [AllocBuffer_of_allocOk env _ _ _ (hok (s0.allocCount + 1))]
    dsimp only
    rw [if_pos hI]
    refine ⟨_, _, _, rfl, rfl, by simp, rfl, rfl, rfl, rfl, rfl, rfl, ?_, ?_⟩
    · exact fun _ => ⟨by simp, rfl, rfl⟩
    · intro h0
      exact absurd hI (by simp [h0])
  · rw [if_neg hI]
    rw [if_neg hI]
    refine ⟨_, _, _, rfl, rfl, by simp, rfl, rfl, rfl, rfl, rfl, rfl, ?_, ?_⟩
    · exact fun h => absurd h hI
    · exact fun _ => rfl

theorem bufferizeMesh_error (env : RenderEnv) (mesh : StaticMesh)
    (s0 : MeshPipelineState) (e : RenderError) (s1 : MeshPipelineState)
    (h : bufferizeMesh env mesh s0 = (Except.error e, s1)) :
    s1.cache = s0.cache ∧ s1.uniformUploadCount = s0.uniformUploadCount ∧
      ∃ size usage, e = RenderError.allocFailed size usage := by
  unfold bufferizeMesh at h
  cases h0 : env.allocOk s0.allocCount with
  | false =>
    rw [AllocBuffer_of_allocFail env s0 _ _ h0] at h
    dsimp only at h
    rw [Prod.mk.injEq] at h
    obtain ⟨he, hs⟩ := h
    rw [Except.error.injEq] at he
    exact ⟨by rw [← hs], by rw [← hs], _, _, he.symm⟩
  | true =>
    rw [AllocBuffer_of_allocOk env s0 _ _ h0] at h
    dsimp only at h
    by_cases hI : 0 < mesh.indices_count
    · rw [if_pos hI] at h
      cases h1 : env.allocOk (s0.allocCount + 1) with
      | false =>
        rw [AllocBuffer_of_allocFail env _ _ _ h1] at h
        dsimp only at h
        rw [Prod.mk.injEq] at h
        obtain ⟨he, hs⟩ := h
        rw [Except.error.injEq] at he
        exact ⟨by rw [← hs], by rw [← hs], _, _, he.symm⟩
      | true =>
        rw [AllocBuffer_of_allocOk env _ _ _ h1] at h
        dsimp only at h
        rw [Prod.mk.injEq] at h
        exact absurd h.1 (by simp)
    · rw [if_neg hI] at h
      rw [Prod.mk.injEq] at h
      exact absurd h.1 (by simp)

theorem ProcessObject_eq_miss_ok (env : RenderEnv) (fi : Nat) (mesh : StaticMesh)
    (s : MeshPipelineState) (bufs : BufferGPU × BufferGPU) (s1 : MeshPipelineState)
    (hfind : s.cache.find? (fun e => meshEq e.1 mesh) = none)
    (hb : bufferizeMesh env mesh s = (Except.ok bufs, s1)) :
    ProcessObject env fi mesh s = (none, finishObject fi mesh bufs s1) := by
  unfold ProcessObject
  rw [hfind, hb]

theorem ProcessObject_eq_miss_error (env : RenderEnv) (fi : Nat) (mesh : StaticMesh)
    (s : MeshPipelineState) (e : RenderError) (s1 : MeshPipelineState)
    (hfind : s.cache.find? (fun e => meshEq e.1 mesh) = none)
    (hb : bufferizeMesh env mesh s = (Except.error e, s1)) :
    ProcessObject env fi mesh s = (some e, s1) := by
  unfold ProcessObject
  rw [hfind, hb]

theorem ProcessObject_caches_mesh (env : RenderEnv) (fi : Nat) (mesh : StaticMesh)
    (s : MeshPipelineState) (hok : ∀ k, env.allocOk k = true) :
    ∃ entry, (ProcessObject env fi mesh s).2.cache.find?
      (fun e => meshEq e.1 mesh) = some entry := by
  cases hfind : s.cache.find? (fun e => meshEq e.1 mesh) with
  | some entry =>
    rw [ProcessObject_eq_hit env fi mesh s entry hfind]
    exact ⟨entry, by rw [finishObject_cache]; exact hfind⟩
  | none =>
    obtain ⟨vb, ib, s1, heq, hcache, -⟩ := bufferizeMesh_ok_of_allocOk env mesh s hok
    rw [ProcessObject_eq_miss_ok env fi mesh s (vb, ib) s1 hfind heq]
    refine ⟨(mesh, (vb, ib)), ?_⟩
    rw [finishObject_cache, hcache]
    exact find_append_single_of_none _ _ _ hfind (meshEq_refl mesh)

theorem bufferizeMesh_ok_uniformUploadCount (env : RenderEnv) (mesh : StaticMesh)
    (s0 : MeshPipelineState) (bufs : BufferGPU × BufferGPU)
    (s1 : MeshPipelineState)
    (h : bufferizeMesh env mesh s0 = (Except.ok bufs, s1)) :
    s1.uniformUploadCount = s0.uniformUploadCount := by
  unfold bufferizeMesh at h
  cases h0 : env.allocOk s0.allocCount with
  | false =>
    rw [AllocBuffer_of_allocFail env s0 _ _ h0] at h
    dsimp only at h
    rw [Prod.mk.injEq] at h
    exact absurd h.1 (by simp)
  | true =>
    rw [AllocBuffer_of_allocOk env s0 _ _ h0] at h
    dsimp only at h
    by_cases hI : 0 < mesh.indices_count
    · rw [if_pos hI] at h
      cases h1 : env.allocOk (s0.allocCount + 1) with
      | false =>
        rw [AllocBuffer_of_allocFail env _ _ _ h1] at h
        dsimp only at h
        rw [Prod.mk.injEq] at h
        exact absurd h.1 (by simp)
      | true =>
        rw [AllocBuffer_of_allocOk env _ _ _ h1] at h
        dsimp only at h
        rw [Prod.mk.injEq] at h
        rw [← h.2]
    · rw [if_neg hI] at h
      rw [Prod.mk.injEq] at h
      rw [← h.2]

/- ----------------------------------------------------------------- -/
/- Claim C1                                                          -/
/- ----------------------------------------------------------------- -/

/-- C1 counterexample: `meshA` and `meshB` have byte-identical vertex,
color and index payloads (here: zero-filled memory) but are stored at
different addresses.  The second `ProcessObject` call does NOT find the
entry created by the first: it performs an additional buffer allocation and
an additional upload, and the cache ends with two entries — refuting
content-addressed caching as claimed. -/
theorem c1_content_addressing_counterexample :
    payloadBytes envAllOk meshA = payloadBytes envAllOk meshB ∧
    meshA.vertices ≠ meshB.vertices ∧
    (ProcessObject envAllOk 0 meshA initState).2.allocCount = 1 ∧
    (ProcessObject envAllOk 0 meshA initState).2.uploadCount = 1 ∧
    (ProcessObject envAllOk 0 meshB
      (ProcessObject envAllOk 0 meshA initState).2).2.allocCount = 2 ∧
    (ProcessObject envAllOk 0 meshB
      (ProcessObject envAllOk 0 meshA initState).2).2.uploadCount = 2 ∧
    (ProcessObject envAllOk 0 meshB
      (ProcessObject envAllOk 0 meshA initState).2).2.cache.length = 2 := by
  decide

/-- C1 (amended): the mesh cache is keyed by the raw bytes of the
`StaticMesh` struct itself — its pointer values and counts — not by the
payload bytes those pointers reference.  A second `ProcessObject` call
passing a struct with the same bytes (same counts and same pointers) finds
the entry the first call created: it reports no error, leaves the cache
unchanged, and performs zero additional buffer allocations and zero
additional uploads.  Byte-identical payloads at different addresses are
distinct keys (see the counterexample). -/
theorem c1_cache_hit_on_identical_struct (env : RenderEnv) (fi1 fi2 : Nat)
    (mesh : StaticMesh) (s : MeshPipelineState)
    (hok : ∀ k, env.allocOk k = true) :
    (ProcessObject env fi2 mesh (ProcessObject env fi1 mesh s).2).1 = none ∧
    (ProcessObject env fi2 mesh (ProcessObject env fi1 mesh s).2).2.cache =
      (ProcessObject env fi1 mesh s).2.cache ∧
    (ProcessObject env fi2 mesh (ProcessObject env fi1 mesh s).2).2.allocCount =
      (ProcessObject env fi1 mesh s).2.allocCount ∧
    (ProcessObject env fi2 mesh (ProcessObject env fi1 mesh s).2).2.uploadCount =
      (ProcessObject env fi1 mesh s).2.uploadCount := by
  obtain ⟨entry, hentry⟩ := ProcessObject_caches_mesh env fi1 mesh s hok
  rw [ProcessObject_eq_hit env fi2 mesh _ entry hentry]
  exact ⟨rfl, finishObject_cache .., finishObject_allocCount ..,
    finishObject_uploadCount ..⟩

/-- Witness for C1's amended theorem: processing `meshA` twice from the
initial state, with every allocation succeeding. -/
theorem c1_cache_hit_on_identical_struct_witness :
    (ProcessObject envAllOk 1 meshA (ProcessObject envAllOk 0 meshA initState).2).1 = none ∧
    (ProcessObject envAllOk 1 meshA (ProcessObject envAllOk 0 meshA initState).2).2.cache =
      (ProcessObject envAllOk 0 meshA initState).2.cache ∧
    (ProcessObject envAllOk 1 meshA (ProcessObject envAllOk 0 meshA initState).2).2.allocCount =
      (ProcessObject envAllOk 0 meshA initState).2.allocCount ∧
    (ProcessObject envAllOk 1 meshA (ProcessObject envAllOk 0 meshA initState).2).2.uploadCount =
      (ProcessObject envAllOk 0 meshA initState).2.uploadCount :=
  c1_cache_hit_on_identical_struct envAllOk 0 1 meshA initState (fun _ => rfl)

/- ----------------------------------------------------------------- -/
/- Claim C5                                                          -/
/- ----------------------------------------------------------------- -/

/-- C5: on a cache miss with a working memory manager, `ProcessObject`
allocates a vertex buffer of exactly
`vertices_count * (sizeof(glVec2) + sizeof(glVec3))` bytes holding the
positions at offset 0 immediately followed by the colors; if
`indices_count > 0` it also allocates an index buffer of exactly
`indices_count * sizeof(uint32_t)` bytes (a second allocation), and if
`indices_count = 0` the entry's index buffer is the default-constructed
null buffer and only the one vertex-buffer allocation happens. -/
theorem c5_exact_buffer_sizing (env : RenderEnv) (fi : Nat) (mesh : StaticMesh)
    (s : MeshPipelineState)
    (hmiss : s.cache.find? (fun e => meshEq e.1 mesh) = none)
    (hok : ∀ k, env.allocOk k = true) :
    ∃ vb ib,
      (ProcessObject env fi mesh s).2.cache = s.cache ++ [(mesh, (vb, ib))] ∧
      vb.size = mesh.vertices_count * (sizeofGlVec2 + sizeofGlVec3) ∧
      vb.data = readBytes env mesh.vertices (mesh.vertices_count * sizeofGlVec2) ++
        readBytes env mesh.colors (mesh.vertices_count * sizeofGlVec3) ∧
      (ProcessObject env fi mesh s).2.allocCount =
        s.allocCount + (if 0 < mesh.indices_count then 2 else 1) ∧
      (0 < mesh.indices_count →
        ib.handle ≠ 0 ∧ ib.size = mesh.indices_count * sizeofUint32 ∧
        ib.data = readBytes env mesh.indices (mesh.indices_count * sizeofUint32)) ∧
      (mesh.indices_count = 0 → ib = nullBuffer) := by
  obtain ⟨vb, ib, s1, heq, hcache, -, hvsize, hvdata, halloc, -, -, -, hib, hib0⟩ :=
    bufferizeMesh_ok_of_allocOk env mesh s hok
  rw [ProcessObject_eq_miss_ok env fi mesh s (vb, ib) s1 hmiss heq]
  refine ⟨vb, ib, ?_, hvsize, hvdata, ?_, hib, hib0⟩
  · rw [finishObject_cache, hcache]
  · rw [finishObject_allocCount, halloc]

/-- Witness for C5's theorem: an indexed one-vertex mesh processed from the
initial state — both buffers get allocated with the exact sizes. -/
theorem c5_exact_buffer_sizing_witness :
    ([] : List (StaticMesh × (BufferGPU × BufferGPU))).find?
      (fun e => meshEq e.1 meshIndexed) = none ∧
    (∃ vb ib,
      (ProcessObject envAllOk 0 meshIndexed initState).2.cache =
        initState.cache ++ [(meshIndexed, (vb, ib))] ∧
      vb.size = meshIndexed.vertices_count * (sizeofGlVec2 + sizeofGlVec3) ∧
      vb.data = readBytes envAllOk meshIndexed.vertices
          (meshIndexed.vertices_count * sizeofGlVec2) ++
        readBytes envAllOk meshIndexed.colors
          (meshIndexed.vertices_count * sizeofGlVec3) ∧
      (ProcessObject envAllOk 0 meshIndexed initState).2.allocCount =
        initState.allocCount + (if 0 < meshIndexed.indices_count then 2 else 1) ∧
      (0 < meshIndexed.indices_count →
        ib.handle ≠ 0 ∧ ib.size = meshIndexed.indices_count * sizeofUint32 ∧
        ib.data = readBytes envAllOk meshIndexed.indices
          (meshIndexed.indices_count * sizeofUint32)) ∧
      (meshIndexed.indices_count = 0 → ib = nullBuffer)) :=
  ⟨rfl, c5_exact_buffer_sizing envAllOk 0 meshIndexed initState rfl (fun _ => rfl)⟩

/- ----------------------------------------------------------------- -/
/- Claim C6                                                          -/
/- ----------------------------------------------------------------- -/

/-- C6: every successful `ProcessObject` call records exactly one draw,
indexed if and only if the mesh's cache entry (after the call) holds an
index buffer with a non-null handle, with the index count respectively the
vertex count taken from the drawable and instance count 1. -/
theorem c6_draw_dispatch (env : RenderEnv) (fi : Nat) (mesh : StaticMesh)
    (s : MeshPipelineState) (hok : ∀ k, env.allocOk k = true) :
    ∃ entry, (ProcessObject env fi mesh s).2.cache.find?
        (fun e => meshEq e.1 mesh) = some entry ∧
      (ProcessObject env fi mesh s).2.draws = s.draws ++
        [if entry.2.2.handle != 0 then DrawCmd.indexed mesh.indices_count 1
          else DrawCmd.nonIndexed mesh.vertices_count 1] := by
  cases hfind : s.cache.find? (fun e => meshEq e.1 mesh) with
  | some entry =>
    rw [ProcessObject_eq_hit env fi mesh s entry hfind]
    refine ⟨entry, ?_, ?_⟩
    · rw [finishObject_cache]; exact hfind
    · exact finishObject_draws ..
  | none =>
    obtain ⟨vb, ib, s1, heq, hcache, -, -, -, -, -, -, hdraws, -, -⟩ :=
      bufferizeMesh_ok_of_allocOk env mesh s hok
    rw [ProcessObject_eq_miss_ok env fi mesh s (vb, ib) s1 hfind heq]
    refine ⟨(mesh, (vb, ib)), ?_, ?_⟩
    · rw [finishObject_cache, hcache]
      exact find_append_single_of_none _ _ _ hfind (meshEq_refl mesh)
    · rw [finishObject_draws, hdraws]

/-- Witness for C6's theorem: the spec's scenario — a triangle with 3
vertices and 0 indices processed from the initial state records exactly one
non-indexed draw with vertex count 3 and instance count 1, and the cache
ends with exactly one entry. -/
theorem c6_draw_dispatch_witness :
    (∃ entry, (ProcessObject envAllOk 0 triangleMesh initState).2.cache.find?
        (fun e => meshEq e.1 triangleMesh) = some entry ∧
      (ProcessObject envAllOk 0 triangleMesh initState).2.draws =
        initState.draws ++
        [if entry.2.2.handle != 0 then
            DrawCmd.indexed triangleMesh.indices_count 1
          else DrawCmd.nonIndexed triangleMesh.vertices_count 1]) ∧
    (ProcessObject envAllOk 0 triangleMesh initState).2.draws =
      [DrawCmd.nonIndexed 3 1] ∧
    (ProcessObject envAllOk 0 triangleMesh initState).1 = none ∧
    (ProcessObject envAllOk 0 triangleMesh initState).2.cache.length = 1 :=
  ⟨c6_draw_dispatch envAllOk 0 triangleMesh initState (fun _ => rfl), by decide⟩

/- ----------------------------------------------------------------- -/
/- Claim C7                                                          -/
/- ----------------------------------------------------------------- -/

/-- C7 counterexample: two `ProcessObject` calls recorded for the same
frame, both with `frame_index = 0` (the whole frame is recorded with one
frame index), each perform a uniform upload — the per-frame uniform data is
uploaded twice in that frame, not at most once. -/
theorem c7_uniform_once_counterexample :
    (ProcessObject envAllOk 0 meshA initState).1 = none ∧
    (ProcessObject envAllOk 0 meshA initState).2.uniformUploadCount = 1 ∧
    (ProcessObject envAllOk 0 meshB
      (ProcessObject envAllOk 0 meshA initState).2).1 = none ∧
    (ProcessObject envAllOk 0 meshB
      (ProcessObject envAllOk 0 meshA initState).2).2.uniformUploadCount = 2 := by
  decide

/-- C7 (amended): each `ProcessObject` call that completes performs a
uniform upload exactly when its `frame_index` argument equals 0, and no
uniform upload otherwise — so a frame recorded with `frame_index = 0`
uploads once per processed object (at most once per frame only when at most
one object is processed). -/
theorem c7_uniform_upload_guard (env : RenderEnv) (fi : Nat) (mesh : StaticMesh)
    (s : MeshPipelineState) (h : (ProcessObject env fi mesh s).1 = none) :
    (ProcessObject env fi mesh s).2.uniformUploadCount =
      s.uniformUploadCount + (if fi = 0 then 1 else 0) := by
  cases hfind : s.cache.find? (fun e => meshEq e.1 mesh) with
  | some entry =>
    rw [ProcessObject_eq_hit env fi mesh s entry hfind]
    exact finishObject_uniformUploadCount ..
  | none =>
    cases hb : bufferizeMesh env mesh s with
    | mk r s1 =>
      cases r with
      | error e =>
        rw [ProcessObject_eq_miss_error env fi mesh s e s1 hfind hb] at h
        exact absurd h (by simp)
      | ok bufs =>
        rw [ProcessObject_eq_miss_ok env fi mesh s bufs s1 hfind hb]
        rw [finishObject_uniformUploadCount]
        rw [bufferizeMesh_ok_uniformUploadCount env mesh s bufs s1 hb]

/-- Witness for C7's amended theorem: a successful call with
`frame_index = 5` performs no uniform upload. -/
theorem c7_uniform_upload_guard_witness :
    (ProcessObject envAllOk 5 meshA initState).1 = none ∧
    (ProcessObject envAllOk 5 meshA initState).2.uniformUploadCount =
      initState.uniformUploadCount + (if 5 = 0 then 1 else 0) :=
  ⟨by decide, c7_uniform_upload_guard envAllOk 5 meshA initState (by decide)⟩

/- ----------------------------------------------------------------- -/
/- Claim C8                                                          -/
/- ----------------------------------------------------------------- -/

/-- C8: whenever `ProcessObject` reports an error, the error is the
construction error raised at a buffer-allocation site (carrying the
requested size and usage), and the cache is exactly what it was before the
call — the entry for the failed mesh was not inserted. -/
theorem c8_cache_unchanged_on_alloc_failure (env : RenderEnv) (fi : Nat)
    (mesh : StaticMesh) (s : MeshPipelineState) (e : RenderError)
    (h : (ProcessObject env fi mesh s).1 = some e) :
    (ProcessObject env fi mesh s).2.cache = s.cache ∧
    ∃ size usage, e = RenderError.allocFailed size usage := by
  cases hfind : s.cache.find? (fun e => meshEq e.1 mesh) with
  | some entry =>
    rw [ProcessObject_eq_hit env fi mesh s entry hfind] at h
    exact absurd h (by simp)
  | none =>
    cases hb : bufferizeMesh env mesh s with
    | mk r s1 =>
      cases r with
      | ok bufs =>
        rw [ProcessObject_eq_miss_ok env fi mesh s bufs s1 hfind hb] at h
        exact absurd h (by simp)
      | error e1 =>
        rw [ProcessObject_eq_miss_error env fi mesh s e1 s1 hfind hb] at h ⊢
        obtain ⟨hcache, -, size, usage, he⟩ :=
          bufferizeMesh_error env mesh s e1 s1 hb
        have he1 : e1 = e := by simpa using h
        exact ⟨hcache, size, usage, he1 ▸ he⟩

/-- Witness for C8's theorem: with a memory manager that fails every
allocation, processing `meshA` from the initial state raises the
vertex-buffer construction error and leaves the cache empty. -/
theorem c8_cache_unchanged_on_alloc_failure_witness :
    (ProcessObject envNoAlloc 0 meshA initState).1 =
      some (RenderError.allocFailed 20 BufferUsage.vertexBufferBit) ∧
    ((ProcessObject envNoAlloc 0 meshA initState).2.cache = initState.cache ∧
      ∃ size usage, RenderError.allocFailed 20 BufferUsage.vertexBufferBit =
        RenderError.allocFailed size usage) :=
  ⟨by decide, c8_cache_unchanged_on_alloc_failure envNoAlloc 0 meshA initState
    (RenderError.allocFailed 20 BufferUsage.vertexBufferBit) (by decide)⟩

/- ----------------------------------------------------------------- -/
/- Claim C10                                                         -/
/- ----------------------------------------------------------------- -/

/-- C10: hash/equality consistency — if `operator==` holds of two
`StaticMesh` values (their struct bytes, i.e. all their fields, agree) then
their `std::hash` values agree, even though the hash reads only
`vertices_count` and the `vertices` pointer.  This is the invariant the
`unordered_map` cache requires of its key type. -/
theorem c10_hash_consistent_with_eq (m1 m2 : StaticMesh)
    (h : meshEq m1 m2 = true) : meshHash m1 = meshHash m2 := by
  unfold meshEq at h
  simp only [Bool.and_eq_true, beq_iff_eq] at h
  obtain ⟨⟨⟨⟨hc, -⟩, hv⟩, -⟩, -⟩ := h
  unfold meshHash
  rw [hc, hv]

/-- A second copy of `meshA`, built field by field (the same struct bytes
stored elsewhere). -/
def meshACopy : StaticMesh :=
  { vertices_count := 1, indices_count := 0, vertices := 100, colors := 200,
    indices := 0 }

/-- Witness for C10's theorem: two field-wise equal meshes (equal struct
bytes) hash equally. -/
theorem c10_hash_consistent_with_eq_witness :
    meshEq meshA meshACopy = true ∧ meshHash meshA = meshHash meshACopy :=
  ⟨by decide, c10_hash_consistent_with_eq meshA meshACopy (by decide)⟩

/- ----------------------------------------------------------------- -/
/- Builder helper lemmas and concrete builders                       -/
/- ----------------------------------------------------------------- -/

theorem applyOp_colorBlendAttachments (b : PipelineBuilder) (op : BuilderOp) :
    (applyOp b op).m_colorBlendAttachments = b.m_colorBlendAttachments := by
  cases op <;> rfl

theorem applyOps_colorBlendAttachments (ops : List BuilderOp) (b : PipelineBuilder) :
    (applyOps b ops).m_colorBlendAttachments = b.m_colorBlendAttachments := by
  induction ops generalizing b with
  | nil => rfl
  | cons op rest ih =>
    show (applyOps (applyOp b op) rest).m_colorBlendAttachments = _
    rw [ih (applyOp b op), applyOp_colorBlendAttachments]

theorem buildStages_modules_length (l : List (ShaderType × String)) (n : Nat) :
    (buildStages l n).2.length = l.length := by
  induction l generalizing n with
  | nil => rfl
  | cons a rest ih =>
    cases a with
    | mk t p => simp [buildStages, ih]

theorem buildStages_stage_map (l : List (ShaderType × String)) (n : Nat) :
    (buildStages l n).1.map VkPipelineShaderStageCreateInfo.stage =
      l.map (fun tp => ShaderType2ShaderStageFlag tp.1) ∧
    (buildStages l n).1.length = l.length := by
  induction l generalizing n with
  | nil => exact ⟨rfl, rfl⟩
  | cons a rest ih =>
    cases a with
    | mk t p => simp [buildStages, (ih (n + 1)).1, (ih (n + 1)).2]

/-- An environment where `vkCreateGraphicsPipelines` reports
`VK_ERROR_OUT_OF_HOST_MEMORY` (-1). -/
def envMakeFail : MakeEnv := { createResult := -1 }

/-- A builder with one vertex and one fragment shader attached, as the mesh
pipeline constructor builds it. -/
def builderVF : PipelineBuilder :=
  (PipelineBuilder.init.AttachShader ShaderType.Vertex
    "triangle_vert.spv").AttachShader ShaderType.Fragment "triangle_frag.spv"

/- ----------------------------------------------------------------- -/
/- Claim C2                                                          -/
/- ----------------------------------------------------------------- -/

/-- C2 counterexample: even straight after `Reset()` — which does set the
builder fields to culling `None` and front face `CCW` — the rasterization
state `Make` submits to the driver hard-codes back-face culling and
clockwise front face, so the produced pipeline does not have culling
disabled or a counter-clockwise front face as claimed. -/
theorem c2_reset_defaults_counterexample :
    PipelineBuilder.init.Reset.m_cullingMode = CullingMode.None ∧
    PipelineBuilder.init.Reset.m_frontFace = FrontFace.CCW ∧
    (makeRasterizationState PipelineBuilder.init.Reset).cullMode = VkCullMode.back ∧
    VkCullMode.back ≠ VkCullMode.noneMode ∧
    (makeRasterizationState PipelineBuilder.init.Reset).frontFace =
      VkFrontFace.clockwise ∧
    VkFrontFace.clockwise ≠ VkFrontFace.counterClockwise := by
  decide

/-- C2 (amended): for a builder on which `Reset()` was called and no
further configuration applied, the pipeline produced by `Make` has line
width 1.0, fill polygon mode, blending disabled — and, because `Make`
hard-codes them regardless of the builder fields `Reset` restores,
back-face culling and a clockwise front face — independent of any
configuration applied before `Reset()`. -/
theorem c2_reset_then_make_defaults (ops : List BuilderOp) :
    (makeRasterizationState (applyOps PipelineBuilder.init ops).Reset).lineWidth = 1 ∧
    (makeRasterizationState (applyOps PipelineBuilder.init ops).Reset).polygonMode =
      VkPolygonMode.fill ∧
    (makeRasterizationState (applyOps PipelineBuilder.init ops).Reset).cullMode =
      VkCullMode.back ∧
    (makeRasterizationState (applyOps PipelineBuilder.init ops).Reset).frontFace =
      VkFrontFace.clockwise ∧
    (makeColorBlendState (applyOps PipelineBuilder.init ops).Reset).attachments =
      [defaultColorBlendAttachment] ∧
    defaultColorBlendAttachment.blendEnable = false := by
  refine ⟨rfl, rfl, rfl, rfl, ?_, rfl⟩
  show ((applyOps PipelineBuilder.init ops).Reset).m_colorBlendAttachments = _
  have hreset : ∀ b : PipelineBuilder,
      b.Reset.m_colorBlendAttachments = b.m_colorBlendAttachments := fun _ => rfl
  rw [hreset, applyOps_colorBlendAttachments]
  rfl

/- ----------------------------------------------------------------- -/
/- Claim C3                                                          -/
/- ----------------------------------------------------------------- -/

/-- C3 counterexample: with a vertex and a fragment shader attached and the
driver reporting status -1, `Make` raises the construction error carrying
-1, but the two shader modules it loaded are NOT released — the cleanup
loop sits after the throw, so `destroyedModules` is empty while
`loadedModules` is not. -/
theorem c3_shader_module_leak_counterexample :
    (PipelineBuilder.Make envMakeFail builderVF).result =
      MakeResult.error (MakeError.pipelineCreationFailed (-1)) ∧
    (PipelineBuilder.Make envMakeFail builderVF).loadedModules = [1, 2] ∧
    (PipelineBuilder.Make envMakeFail builderVF).destroyedModules = [] := by
  decide

/-- C3 (amended): when the driver's pipeline-creation call reports a
non-success status, `Make` raises a construction error carrying exactly
that driver status code, but the shader modules loaded for the attached
shaders (one per attachment) are not released before the error propagates —
the cleanup loop runs only on the success path. -/
theorem c3_make_failure_raises_with_code (env : MakeEnv) (b : PipelineBuilder)
    (h : env.createResult ≠ 0) :
    (PipelineBuilder.Make env b).result =
      MakeResult.error (MakeError.pipelineCreationFailed env.createResult) ∧
    (PipelineBuilder.Make env b).destroyedModules = [] ∧
    (PipelineBuilder.Make env b).loadedModules.length =
      b.m_attachedShaders.length := by
  unfold PipelineBuilder.Make
  rw [if_neg h]
  exact ⟨rfl, rfl, buildStages_modules_length ..⟩

/-- Witness for C3's amended theorem at the concrete failing run. -/
theorem c3_make_failure_raises_with_code_witness :
    (PipelineBuilder.Make envMakeFail builderVF).result =
      MakeResult.error (MakeError.pipelineCreationFailed envMakeFail.createResult) ∧
    (PipelineBuilder.Make envMakeFail builderVF).destroyedModules = [] ∧
    (PipelineBuilder.Make envMakeFail builderVF).loadedModules.length =
      builderVF.m_attachedShaders.length :=
  c3_make_failure_raises_with_code envMakeFail builderVF (by decide)

/- ----------------------------------------------------------------- -/
/- Claim C4                                                          -/
/- ----------------------------------------------------------------- -/

/-- C4 counterexample: after attaching one vertex shader and calling
`Reset()`, the attached-shader list still holds that shader — `Reset` does
not clear it, contradicting the claim that the list is empty. -/
theorem c4_reset_clears_shaders_counterexample :
    (PipelineBuilder.init.AttachShader ShaderType.Vertex
      "triangle_vert.spv").Reset.m_attachedShaders =
      [(ShaderType.Vertex, "triangle_vert.spv")] ∧
    (PipelineBuilder.init.AttachShader ShaderType.Vertex
      "triangle_vert.spv").Reset.m_attachedShaders ≠ [] := by
  decide

/-- C4 (amended): `Reset()` restores the default fixed-function fields but
leaves the attached-shader list exactly as it was, so `Make`'s shader-stage
output after a `Reset` still reflects every `AttachShader` call made before
it — the builder's subsequent output is NOT independent of prior
`AttachShader` calls. -/
theorem c4_reset_preserves_attached_shaders (b : PipelineBuilder) (env : MakeEnv) :
    b.Reset.m_attachedShaders = b.m_attachedShaders ∧
    (PipelineBuilder.Make env b.Reset).shaderStages =
      (PipelineBuilder.Make env b).shaderStages ∧
    b.Reset.m_lineWidth = 1 ∧
    b.Reset.m_polygonMode = PolygonMode.Fill ∧
    b.Reset.m_cullingMode = CullingMode.None ∧
    b.Reset.m_frontFace = FrontFace.CCW ∧
    b.Reset.m_blendEnabled = false := by
  refine ⟨rfl, ?_, rfl, rfl, rfl, rfl, rfl⟩
  unfold PipelineBuilder.Make
  rw [show b.Reset.m_attachedShaders = b.m_attachedShaders from rfl]

/- ----------------------------------------------------------------- -/
/- Claim C9                                                          -/
/- ----------------------------------------------------------------- -/

/-- C9: `AttachShader` appends one `(type, path)` entry per call, in call
order, with no deduplication or rejection of repeated stage types — calling
it twice with the same arguments yields two list entries — and `Make`
builds exactly one shader-stage create-info per attached entry, in list
order, carrying the stage flag translated from that entry's `ShaderType`. -/
theorem c9_attach_append_no_dedup (b : PipelineBuilder) (t : ShaderType)
    (p : String) (env : MakeEnv) :
    (b.AttachShader t p).m_attachedShaders = b.m_attachedShaders ++ [(t, p)] ∧
    ((b.AttachShader t p).AttachShader t p).m_attachedShaders =
      b.m_attachedShaders ++ [(t, p), (t, p)] ∧
    (PipelineBuilder.Make env b).shaderStages.length =
      b.m_attachedShaders.length ∧
    (PipelineBuilder.Make env b).shaderStages.map
        VkPipelineShaderStageCreateInfo.stage =
      b.m_attachedShaders.map (fun tp => ShaderType2ShaderStageFlag tp.1) := by
  refine ⟨rfl, by simp [PipelineBuilder.AttachShader], ?_, ?_⟩
  · unfold PipelineBuilder.Make
    by_cases h : env.createResult = 0 <;>
      simp [h, (buildStages_stage_map b.m_attachedShaders 1).2]
  · unfold PipelineBuilder.Make
    by_cases h : env.createResult = 0 <;>
      simp [h, (buildStages_stage_map b.m_attachedShaders 1).1]
